import Mathlib

/-!
Verification of the power-consumption simulation engine of the
`power-graph` repository (file `streamlit_app.py`).

The engine is a set of pure Python functions over numeric dictionaries.
They are shallowly embedded here over `ℚ` (Python floats become exact
rationals; equalities "within floating-point tolerance" become exact
equalities over `ℚ`).  Python dictionaries become structures; dictionary
entries read through `.get(key, default)` become `Option` fields read
through `Option.getD`; dictionary keys that may be absent become `Option`
fields.  Python code that can raise (`ZeroDivisionError` on `x / 0.0`,
`ValueError` on a zero `range` step) is embedded with `Option` results,
`none` standing for the raised exception.
-/

namespace PowerGraph

/-! ## Component power model constants (from SENSOR_CONFIGS, COMMS_CONFIGS,
COPROCESSOR_CONFIGS in the source) -/

/-- `COMMS_CONFIGS["GPS"]["power_modes"]["acquisition"]["power"]` (25.0 mW). -/
def GPS_acquisition_power : ℚ := 25

/-- `COMMS_CONFIGS["GPS"]["power_modes"]["acquisition"]["typical_duration"]` (30.0 s). -/
def GPS_acquisition_duration : ℚ := 30

/-- `COMMS_CONFIGS["GPS"]["power_modes"]["tracking"]["power"]` (20.0 mW). -/
def GPS_tracking_power : ℚ := 20

/-- `COMMS_CONFIGS["GPS"]["power_modes"]["tracking"]["typical_duration"]` (5.0 s). -/
def GPS_tracking_duration : ℚ := 5

/-- `COMMS_CONFIGS["CELLULAR"]["power_modes"]["startup"]["power"]` (600.0 mW). -/
def CELLULAR_startup_power : ℚ := 600

/-- `COMMS_CONFIGS["CELLULAR"]["power_modes"]["startup"]["duration"]` (5.0 s). -/
def CELLULAR_startup_duration : ℚ := 5

/-- `COMMS_CONFIGS["CELLULAR"]["power_modes"]["active"]["power"]` (500.0 mW). -/
def CELLULAR_active_power : ℚ := 500

/-- `COMMS_CONFIGS["CELLULAR"]["default_schedule"]["duration"]` (10 minutes). -/
def CELLULAR_default_duration : ℚ := 10

/-- `COMMS_CONFIGS["LORA"]["power_modes"]["tx"]["power"]` (100.0 mW). -/
def LORA_tx_power : ℚ := 100

/-- `COMMS_CONFIGS["LORA"]["power_modes"]["tx"]["typical_duration"]` (5.0 s). -/
def LORA_tx_duration : ℚ := 5

/-- `COMMS_CONFIGS["LORA"]["power_modes"]["rx"]["power"]` (10.0 mW). -/
def LORA_rx_power : ℚ := 10

/-- `COMMS_CONFIGS["LORA"]["power_modes"]["sleep"]["power"]` (0.0015 mW). -/
def LORA_sleep_power : ℚ := 3 / 2000

/-- `COMMS_CONFIGS["LORA"]["default_schedule"]["rx_duty_cycle"]` (0.1),
also the default of every `lora.get("rx_duty_cycle", 0.1)` read. -/
def LORA_default_rx_duty : ℚ := 1 / 10

/-- The co-processor catalog keys of `COPROCESSOR_CONFIGS`. -/
inductive CoprocessorType where
  | JetsonOrinNano
  | RaspberryPiCM4
deriving DecidableEq

/-- `COPROCESSOR_CONFIGS[type]["startup_time"]` (seconds). -/
def COPROCESSOR_startup_time : CoprocessorType → ℚ
  | CoprocessorType.JetsonOrinNano => 30
  | CoprocessorType.RaspberryPiCM4 => 20

/-- `COPROCESSOR_CONFIGS[type]["power_modes"]["typical"]["active"]` (mW). -/
def COPROCESSOR_typical_active : CoprocessorType → ℚ
  | CoprocessorType.JetsonOrinNano => 7000
  | CoprocessorType.RaspberryPiCM4 => 4000

/-- The sensor catalog keys of `SENSOR_CONFIGS`. -/
inductive SensorId where
  | LSM6DSV
  | MMC5983MA
  | TSL2591
  | BME280
deriving DecidableEq

/-- `SENSOR_CONFIGS[id]["operation_mode"]`: `"continuous"` or `"polled"`. -/
inductive OperationMode where
  | continuous
  | polled
deriving DecidableEq

/-- `SENSOR_CONFIGS[id]["operation_mode"]`: only the LSM6DSV IMU is
continuous, the other three sensors are polled. -/
def operation_mode : SensorId → OperationMode
  | SensorId.LSM6DSV => OperationMode.continuous
  | SensorId.MMC5983MA => OperationMode.polled
  | SensorId.TSL2591 => OperationMode.polled
  | SensorId.BME280 => OperationMode.polled

/-! ## Configuration records (the UI-supplied dictionaries) -/

/-- One per-sensor entry of `sensors_config`:
`{"enabled": ..., "active_power": ..., "sleep_power": ...}`. -/
structure SensorEntry where
  enabled : Bool
  active_power : ℚ
  sleep_power : ℚ
deriving DecidableEq

/-- The `sensors_config` dictionary: per-sensor entries (an association
list standing for the dictionary items other than the two base keys), plus
the two optional base keys read via
`sensors_config.get("base_frequency_per_hour", 60.0)` and
`sensors_config.get("base_duration_seconds", 0.1)`. -/
structure SensorsConfig where
  sensors : List (SensorId × SensorEntry)
  base_frequency_per_hour : Option ℚ
  base_duration_seconds : Option ℚ
deriving DecidableEq

/-- `comms_config["gps"]`. -/
structure GpsConfig where
  enabled : Bool
  active_power : ℚ
  frequency_per_hour : ℚ
  duration_seconds : ℚ
deriving DecidableEq

/-- `comms_config["cellular"]`. -/
structure CellularConfig where
  enabled : Bool
  active_power : ℚ
  frequency_per_day : ℚ
  duration_minutes : ℚ
deriving DecidableEq

/-- `lora["frequency_type"]`: `"per_hour"` or `"per_day"`. -/
inductive FrequencyType where
  | per_hour
  | per_day
deriving DecidableEq

/-- `comms_config["lora"]`.  `listen_enabled` and `rx_duty_cycle` are read
in the source only through `lora.get("listen_enabled", False)` and
`lora.get("rx_duty_cycle", 0.1)`, so they are `Option` fields. -/
structure LoraConfig where
  enabled : Bool
  active_power : ℚ
  frequency_type : FrequencyType
  frequency : ℚ
  duration_seconds : ℚ
  listen_enabled : Option Bool
  rx_duty_cycle : Option ℚ
deriving DecidableEq

/-- The `comms_config` dictionary. -/
structure CommsConfig where
  gps : GpsConfig
  cellular : CellularConfig
  lora : LoraConfig
deriving DecidableEq

/-- The `coprocessor_config` dictionary. -/
structure CoprocessorConfig where
  enabled : Bool
  type : CoprocessorType
  active_power : ℚ
  idle_power : ℚ
  frequency_per_day : ℚ
  duration_minutes : ℚ
deriving DecidableEq

/-- The `efficiency_factors` dictionary (derating triple, percentages). -/
structure EfficiencyFactors where
  temperature : ℚ
  aging : ℚ
  voltage : ℚ
deriving DecidableEq

/-! ## Result records -/

/-- One entry of `calculate_sensor_consumption`'s `details` dictionary. -/
structure SensorDetail where
  total_mwh : ℚ
  average_mw : ℚ
  operation_mode : OperationMode
deriving DecidableEq

/-- Result of `calculate_sensor_consumption`. -/
structure SensorConsumption where
  continuous : ℚ
  polled : ℚ
  total : ℚ
  details : List (SensorId × SensorDetail)
deriving DecidableEq

/-- `consumption["details"]["gps"]` of `calculate_comms_consumption`. -/
structure GpsDetail where
  total_mwh : ℚ
  average_mw : ℚ
  updates : ℚ
deriving DecidableEq

/-- `consumption["details"]["cellular"]` of `calculate_comms_consumption`. -/
structure CellularDetail where
  total_mwh : ℚ
  average_mw : ℚ
  sessions : ℚ
deriving DecidableEq

/-- `consumption["details"]["lora"]` of `calculate_comms_consumption`. -/
structure LoraDetail where
  total_mwh : ℚ
  average_mw : ℚ
  messages : ℚ
  rx_enabled : Bool
deriving DecidableEq

/-- Result of `calculate_comms_consumption`: the running `total` and the
three optional `details` entries. -/
structure CommsConsumption where
  total : ℚ
  gps : Option GpsDetail
  cellular : Option CellularDetail
  lora : Option LoraDetail
deriving DecidableEq

/-- `consumption["details"]` of `calculate_coprocessor_consumption`. -/
structure CoprocessorDetail where
  startup_mwh : ℚ
  active_mwh : ℚ
  idle_mwh : ℚ
  average_mw : ℚ
  windows : ℚ
deriving DecidableEq

/-- Result of `calculate_coprocessor_consumption` (`details` is the empty
dictionary, i.e. `none`, when the co-processor is disabled). -/
structure CoprocessorConsumption where
  total : ℚ
  details : Option CoprocessorDetail
deriving DecidableEq

/-- Result of `calculate_total_consumption`. -/
structure TotalConsumption where
  sensors : SensorConsumption
  communications : CommsConsumption
  coprocessor : CoprocessorConsumption
  efficiency_factors : EfficiencyFactors
  raw_total_mwh : ℚ
  efficiency : ℚ
  derated_total_mwh : ℚ
  average_power_mw : ℚ
deriving DecidableEq

/-! ## Calculators -/

/-- One iteration of the `for sensor_id, sensor in sensors_config.items()`
loop of `calculate_sensor_consumption` (lines 348-374 of the source):
skips disabled sensors, otherwise adds the sensor's energy to the
`continuous` or `polled` bucket according to the catalog's operation mode
and records the per-sensor detail entry. -/
def sensorStep (base_frequency base_duration hours : ℚ)
    (acc : SensorConsumption) (p : SensorId × SensorEntry) : SensorConsumption :=
  if p.2.enabled then
    match operation_mode p.1 with
    | OperationMode.continuous =>
      let sensor_consumption := p.2.active_power * hours
      { continuous := acc.continuous + sensor_consumption
        polled := acc.polled
        total := acc.total
        details := acc.details ++
          [(p.1, { total_mwh := sensor_consumption
                   average_mw := sensor_consumption / hours
                   operation_mode := OperationMode.continuous })] }
    | OperationMode.polled =>
      let active_hours := base_frequency * base_duration * hours / 3600
      let sleep_hours := hours - active_hours
      let sensor_consumption :=
        p.2.active_power * active_hours + p.2.sleep_power * sleep_hours
      { continuous := acc.continuous
        polled := acc.polled + sensor_consumption
        total := acc.total
        details := acc.details ++
          [(p.1, { total_mwh := sensor_consumption
                   average_mw := sensor_consumption / hours
                   operation_mode := OperationMode.polled })] }
  else acc

/-- `calculate_sensor_consumption(sensors_config, hours)` (source lines
335-377).  The `consumption` dictionary starts at zero, each sensor item is
processed in order, and finally `total = continuous + polled`. -/
def calculate_sensor_consumption (sensors_config : SensorsConfig) (hours : ℚ) :
    SensorConsumption :=
  let base_frequency := sensors_config.base_frequency_per_hour.getD 60
  let base_duration := sensors_config.base_duration_seconds.getD (1 / 10)
  let c := sensors_config.sensors.foldl
    (sensorStep base_frequency base_duration hours)
    { continuous := 0, polled := 0, total := 0, details := [] }
  { continuous := c.continuous
    polled := c.polled
    total := c.continuous + c.polled
    details := c.details }

/-- `calculate_comms_consumption(comms_config, hours)` (source lines
379-473).  Each of the three radios contributes a detail entry and its
energy to the running total when enabled. -/
def calculate_comms_consumption (comms_config : CommsConfig) (hours : ℚ) :
    CommsConsumption :=
  let gps_part : Option GpsDetail × ℚ :=
    if comms_config.gps.enabled then
      let gps := comms_config.gps
      let updates_per_period := gps.frequency_per_hour * hours
      let acquisition_energy := GPS_acquisition_power * GPS_acquisition_duration / 3600
      let tracking_energy :=
        (updates_per_period - 1) * gps.active_power * gps.duration_seconds / 3600
      let gps_consumption := acquisition_energy + tracking_energy
      (some { total_mwh := gps_consumption
              average_mw := gps_consumption / hours
              updates := updates_per_period }, gps_consumption)
    else (none, 0)
  let cellular_part : Option CellularDetail × ℚ :=
    if comms_config.cellular.enabled then
      let cellular := comms_config.cellular
      let sessions_per_period := cellular.frequency_per_day * (hours / 24)
      let startup_energy :=
        sessions_per_period * CELLULAR_startup_power * CELLULAR_startup_duration / 3600
      let active_energy :=
        sessions_per_period * cellular.active_power * cellular.duration_minutes * 60 / 3600
      let cellular_consumption := startup_energy + active_energy
      (some { total_mwh := cellular_consumption
              average_mw := cellular_consumption / hours
              sessions := sessions_per_period }, cellular_consumption)
    else (none, 0)
  let lora_part : Option LoraDetail × ℚ :=
    if comms_config.lora.enabled then
      let lora := comms_config.lora
      let messages_per_period :=
        (match lora.frequency_type with
         | FrequencyType.per_hour => hours
         | FrequencyType.per_day => hours / 24) * lora.frequency
      let tx_energy := messages_per_period * lora.active_power * lora.duration_seconds / 3600
      let listen := lora.listen_enabled.getD false
      let rx_time := hours * 3600 * lora.rx_duty_cycle.getD LORA_default_rx_duty
      let rx_energy := if listen then LORA_rx_power * rx_time / 3600 else 0
      let active_time :=
        messages_per_period * lora.duration_seconds + (if listen then rx_time else 0)
      let sleep_time := hours * 3600 - active_time
      let sleep_energy := LORA_sleep_power * sleep_time / 3600
      let lora_consumption := tx_energy + rx_energy + sleep_energy
      (some { total_mwh := lora_consumption
              average_mw := lora_consumption / hours
              messages := messages_per_period
              rx_enabled := listen }, lora_consumption)
    else (none, 0)
  { total := gps_part.2 + cellular_part.2 + lora_part.2
    gps := gps_part.1
    cellular := cellular_part.1
    lora := lora_part.1 }

/-- `calculate_coprocessor_consumption(config, hours)` (source lines
475-509).  The early return for a disabled co-processor yields
`{"total": 0.0, "details": {}}`; the startup power is always the
component's `typical` mode active power. -/
def calculate_coprocessor_consumption (config : CoprocessorConfig) (hours : ℚ) :
    CoprocessorConsumption :=
  if config.enabled then
    let windows_per_period := config.frequency_per_day * (hours / 24)
    let startup_time_hrs := COPROCESSOR_startup_time config.type / 3600
    let startup_power := COPROCESSOR_typical_active config.type
    let startup_energy := startup_power * startup_time_hrs * windows_per_period
    let active_time_hrs := config.duration_minutes * windows_per_period / 60
    let active_energy := config.active_power * active_time_hrs
    let idle_time_hrs := hours - active_time_hrs - startup_time_hrs * windows_per_period
    let idle_energy := config.idle_power * idle_time_hrs
    let total_energy := startup_energy + active_energy + idle_energy
    { total := total_energy
      details := some
        { startup_mwh := startup_energy
          active_mwh := active_energy
          idle_mwh := idle_energy
          average_mw := total_energy / hours
          windows := windows_per_period } }
  else { total := 0, details := none }

/-- `calculate_total_consumption(...)` (source lines 511-536).  The final
divisions `raw_total / efficiency` and `derated / hours` are Python float
divisions that raise `ZeroDivisionError` on a zero divisor; a raised
exception is modelled as `none`. -/
def calculate_total_consumption (sensors_config : SensorsConfig)
    (comms_config : CommsConfig) (coprocessor_config : CoprocessorConfig)
    (efficiency_factors : EfficiencyFactors) (hours : ℚ) :
    Option TotalConsumption :=
  let sensors := calculate_sensor_consumption sensors_config hours
  let communications := calculate_comms_consumption comms_config hours
  let coprocessor := calculate_coprocessor_consumption coprocessor_config hours
  let raw_total := sensors.total + communications.total + coprocessor.total
  let efficiency := efficiency_factors.temperature / 100 *
    efficiency_factors.aging / 100 * efficiency_factors.voltage / 100
  if efficiency = 0 then none
  else if hours = 0 then none
  else
    let derated := raw_total / efficiency
    some { sensors := sensors
           communications := communications
           coprocessor := coprocessor
           efficiency_factors := efficiency_factors
           raw_total_mwh := raw_total
           efficiency := efficiency
           derated_total_mwh := derated
           average_power_mw := derated / hours }

/-! ## Timeline synthesizer

`calculate_power_timeline(consumption_data, hours)` (source lines 543-628)
builds a `numpy` array of `hours * 3600` one-second power samples and adds
each category's contribution with slice assignments.  It is embedded as a
function from the sample index to the sample value (indices `≥ seconds`
are 0, matching the array bound; Python slice clamping at the right edge
is irrelevant because only indices `< seconds` exist).  A slice
`timeline[a:b] += p` contributes `p` to every index in `[a, b)`; a loop
`for t in range(0, seconds, step)` becomes a `Finset` sum over the
iteration count.  `int(x)` truncation and exceptions (`ZeroDivisionError`
from `x / 0.0`, `ValueError` from a zero `range` step) are modelled by
`pyint` and `Option`. -/

/-- Python `int(x)` on a float: truncation toward zero. -/
def pyint (q : ℚ) : ℤ := if q < 0 then ⌈q⌉ else ⌊q⌋

/-- Python float division, raising (`none`) on a zero divisor. -/
def pydiv (a b : ℚ) : Option ℚ := if b = 0 then none else some (a / b)

/-- Number of iterations of Python `range(0, stop, step)` for an integer
`step` (`stop : ℕ`); empty for a negative step.  The `step = 0` case
raises `ValueError` in Python and is excluded by an `Option` guard at
every use site. -/
def rangeCount (stop : ℕ) (step : ℤ) : ℕ :=
  if 0 < step then (stop + step.toNat - 1) / step.toNat else 0

/-- Value added at index `s` by a slice `timeline[lo:hi] += p`. -/
def sliceContrib (lo hi : ℤ) (s : ℕ) (p : ℚ) : ℚ :=
  if lo ≤ (s : ℤ) ∧ (s : ℤ) < hi then p else 0

/-- Value at index `s` accumulated by a loop
`for t in range(0, seconds, step): ...` whose body adds `body t s`. -/
def loopAdd (seconds : ℕ) (step : ℤ) (body : ℤ → ℕ → ℚ) : ℕ → ℚ :=
  fun s => ∑ k ∈ Finset.range (rangeCount seconds step), body (step * k) s

/-- Timeline step 1 (source lines 549-552): the continuous-sensor power is
spread uniformly when positive. -/
def timeline_continuous (consumption_data : TotalConsumption) (hours : ℕ) : ℚ :=
  if 0 < consumption_data.sensors.continuous then
    consumption_data.sensors.continuous / (hours : ℚ)
  else 0

/-- Timeline step 2 (source lines 554-565): polled sensor events.  The
source reads `consumption_data.get("base_frequency_per_hour", 60)` and
`consumption_data.get("base_duration_seconds", 0.1)`, but the aggregate
dictionary returned by `calculate_total_consumption` has no such keys, so
both reads always yield their defaults (60 and 0.1). -/
def timeline_polled (consumption_data : TotalConsumption) (hours : ℕ) : ℕ → ℚ :=
  fun s =>
    (consumption_data.sensors.details.map (fun p =>
      if p.2.operation_mode = OperationMode.polled then
        let interval : ℚ := 3600 / 60
        let duration : ℚ := 1 / 10
        loopAdd (hours * 3600) (pyint interval)
          (fun t s' =>
            if (t : ℚ) + duration < ((hours * 3600 : ℕ) : ℚ) then
              sliceContrib (pyint (t : ℚ)) (pyint ((t : ℚ) + duration)) s' p.2.average_mw
            else 0) s
      else 0)).sum

/-- Timeline step 3 (source lines 567-581): GPS events; the first fix adds
the acquisition spike at `t = 0`, later fixes add the tracking power for
the model's typical tracking duration. -/
def timeline_gps (consumption_data : TotalConsumption) (hours : ℕ) :
    Option (ℕ → ℚ) :=
  let seconds := hours * 3600
  match consumption_data.communications.gps with
  | none => some (fun _ => 0)
  | some gps_details =>
    if gps_details.average_mw = 0 then some (fun _ => 0)
    else
      match pydiv (3600 * 24) gps_details.updates with
      | none => none
      | some q =>
        let interval := pyint q
        let duration := pyint GPS_tracking_duration
        if interval = 0 then none
        else some (loopAdd seconds interval (fun t s' =>
          if t = 0 then
            sliceContrib t (t + pyint GPS_acquisition_duration) s' GPS_acquisition_power
          else if t + duration < (seconds : ℤ) then
            sliceContrib t (t + duration) s' GPS_tracking_power
          else 0))

/-- Timeline step 4 (source lines 583-596): cellular events; a one-second
startup spike at `t`, then the active power over `[t+1, t+duration)`,
where the duration is the default schedule's 10 minutes. -/
def timeline_cellular (consumption_data : TotalConsumption) (hours : ℕ) :
    Option (ℕ → ℚ) :=
  let seconds := hours * 3600
  match consumption_data.communications.cellular with
  | none => some (fun _ => 0)
  | some cellular_details =>
    if cellular_details.average_mw = 0 then some (fun _ => 0)
    else
      match pydiv (24 * 3600) cellular_details.sessions with
      | none => none
      | some q =>
        let interval := pyint q
        let duration := pyint (CELLULAR_default_duration * 60)
        if interval = 0 then none
        else some (loopAdd seconds interval (fun t s' =>
          if t + duration < (seconds : ℤ) then
            (if (s' : ℤ) = t then CELLULAR_startup_power else 0) +
              sliceContrib (t + 1) (t + duration) s' CELLULAR_active_power
          else 0))

/-- Timeline step 5 (source lines 598-613): LoRa transmit events plus a
constant listening floor.  The detail dictionary has no `rx_duty_cycle`
key, so `lora_details.get("rx_duty_cycle", 0.1)` always yields 0.1. -/
def timeline_lora (consumption_data : TotalConsumption) (hours : ℕ) :
    Option (ℕ → ℚ) :=
  let seconds := hours * 3600
  match consumption_data.communications.lora with
  | none => some (fun _ => 0)
  | some lora_details =>
    if lora_details.average_mw = 0 then some (fun _ => 0)
    else
      match pydiv (24 * 3600) lora_details.messages with
      | none => none
      | some q =>
        let interval := pyint q
        let duration := pyint LORA_tx_duration
        if interval = 0 then none
        else some (fun s =>
          loopAdd seconds interval (fun t s' =>
            if t + duration < (seconds : ℤ) then
              sliceContrib t (t + duration) s' LORA_tx_power
            else 0) s +
          (if lora_details.rx_enabled then LORA_rx_power * LORA_default_rx_duty else 0))

/-- Timeline step 6 (source lines 615-626): co-processor windows at the
category's average power, with the window length recovered as
`active_mwh / average_mw * 3600`. -/
def timeline_coprocessor (consumption_data : TotalConsumption) (hours : ℕ) :
    Option (ℕ → ℚ) :=
  let seconds := hours * 3600
  if 0 < consumption_data.coprocessor.total then
    let details := consumption_data.coprocessor.details
    let windows := (details.map (fun d => d.windows)).getD 1
    let active_mwh := (details.map (fun d => d.active_mwh)).getD 0
    let average_for_duration := (details.map (fun d => d.average_mw)).getD 1
    match pydiv (24 * 3600) windows with
    | none => none
    | some qi =>
      let interval := pyint qi
      match pydiv active_mwh average_for_duration with
      | none => none
      | some qd =>
        let duration := pyint (qd * 3600)
        if interval = 0 then none
        else
          let body_power := (details.map (fun d => d.average_mw)).getD 0
          some (loopAdd seconds interval (fun t s' =>
            if t + duration < (seconds : ℤ) then
              sliceContrib t (t + duration) s' body_power
            else 0))
  else some (fun _ => 0)

/-- `calculate_power_timeline(consumption_data, hours)` (source lines
543-628): the zero-initialized array accumulates the six contributions;
any exception raised while building it yields `none`. -/
def calculate_power_timeline (consumption_data : TotalConsumption)
    (hours : ℕ) : Option (ℕ → ℚ) :=
  let seconds := hours * 3600
  match timeline_gps consumption_data hours, timeline_cellular consumption_data hours,
      timeline_lora consumption_data hours, timeline_coprocessor consumption_data hours with
  | some c3, some c4, some c5, some c6 =>
    some (fun s =>
      if s < seconds then
        timeline_continuous consumption_data hours +
          timeline_polled consumption_data hours s + c3 s + c4 s + c5 s + c6 s
      else 0)
  | _, _, _, _ => none

/-- The value of `calculate_battery_life`: a number of days or the
`float("inf")` sentinel. -/
inductive BatteryLife where
  | days (d : ℚ)
  | infinite
deriving DecidableEq

/-- `calculate_battery_life(battery_capacity_wh, daily_consumption_mwh)`
(source lines 538-541). -/
def calculate_battery_life (battery_capacity_wh daily_consumption_mwh : ℚ) :
    BatteryLife :=
  if daily_consumption_mwh > 0 then
    BatteryLife.days (battery_capacity_wh * 1000 / daily_consumption_mwh)
  else BatteryLife.infinite

/-! ## Basic lemmas about the embedding -/

lemma pyint_intCast (n : ℤ) : pyint ((n : ℚ)) = n := by
  unfold pyint
  split_ifs <;> simp

lemma pyint_int_add_tenth (n : ℤ) (hn : 0 ≤ n) :
    pyint ((n : ℚ) + 1 / 10) = n := by
  have hq : (0 : ℚ) ≤ (n : ℚ) := by exact_mod_cast hn
  unfold pyint
  rw [if_neg (by linarith), Int.floor_int_add]
  norm_num

lemma sliceContrib_empty (lo hi : ℤ) (s : ℕ) (p : ℚ) (h : hi ≤ lo) :
    sliceContrib lo hi s p = 0 := by
  unfold sliceContrib
  rw [if_neg]
  rintro ⟨h1, h2⟩
  omega

/-- Polled sensors never contribute to the timeline: the slice
`timeline[int(t):int(t + 0.1)]` is empty for every integer `t ≥ 0`. -/
lemma timeline_polled_eq_zero (data : TotalConsumption) (hours : ℕ) (s : ℕ) :
    timeline_polled data hours s = 0 := by
  unfold timeline_polled
  apply List.sum_eq_zero
  intro x hx
  simp only [List.mem_map] at hx
  obtain ⟨p, -, rfl⟩ := hx
  by_cases hp : p.2.operation_mode = OperationMode.polled
  · rw [if_pos hp]
    unfold loopAdd
    apply Finset.sum_eq_zero
    intro k _
    have hstep : pyint ((3600 : ℚ) / 60) = 60 := by
      have h6 : (3600 : ℚ) / 60 = ((60 : ℤ) : ℚ) := by norm_num
      rw [h6, pyint_intCast]
    have h60 : (0 : ℤ) ≤ 60 * (k : ℤ) := by positivity
    simp only [hstep]
    split_ifs
    · rw [pyint_intCast, pyint_int_add_tenth _ h60]
      exact sliceContrib_empty _ _ _ _ le_rfl
    · rfl
  · rw [if_neg hp]

lemma comms_disabled_eval (cc : CommsConfig) (hours : ℚ)
    (h1 : cc.gps.enabled = false) (h2 : cc.cellular.enabled = false)
    (h3 : cc.lora.enabled = false) :
    calculate_comms_consumption cc hours =
      { total := 0, gps := none, cellular := none, lora := none } := by
  simp [calculate_comms_consumption, h1, h2, h3]

lemma coprocessor_disabled_eval (c : CoprocessorConfig) (hours : ℚ)
    (h : c.enabled = false) :
    calculate_coprocessor_consumption c hours = { total := 0, details := none } := by
  simp [calculate_coprocessor_consumption, h]

lemma sensorStep_disabled (f d h : ℚ) (acc : SensorConsumption)
    (p : SensorId × SensorEntry) (hp : p.2.enabled = false) :
    sensorStep f d h acc p = acc := by
  simp [sensorStep, hp]

lemma sensorStep_details_mono (f d h : ℚ) (acc : SensorConsumption)
    (p : SensorId × SensorEntry) (q : SensorId × SensorDetail)
    (hq : q ∈ acc.details) : q ∈ (sensorStep f d h acc p).details := by
  unfold sensorStep
  split_ifs with he
  · cases hm : operation_mode p.1 <;> exact List.mem_append_left _ hq
  · exact hq

lemma foldl_details_mono (f d h : ℚ) (l : List (SensorId × SensorEntry)) :
    ∀ (acc : SensorConsumption) (q : SensorId × SensorDetail),
      q ∈ acc.details → q ∈ (l.foldl (sensorStep f d h) acc).details := by
  induction l with
  | nil => intro acc q hq; exact hq
  | cons p l ih =>
    intro acc q hq
    rw [List.foldl_cons]
    exact ih _ _ (sensorStep_details_mono f d h acc p q hq)

lemma foldl_details_of_mem_polled (f d h : ℚ) (l : List (SensorId × SensorEntry)) :
    ∀ (acc : SensorConsumption) (id : SensorId) (e : SensorEntry),
      (id, e) ∈ l → e.enabled = true →
      operation_mode id = OperationMode.polled →
      (id, { total_mwh := e.active_power * (f * d * h / 3600) +
               e.sleep_power * (h - f * d * h / 3600)
             average_mw := (e.active_power * (f * d * h / 3600) +
               e.sleep_power * (h - f * d * h / 3600)) / h
             operation_mode := OperationMode.polled }) ∈
        (l.foldl (sensorStep f d h) acc).details := by
  induction l with
  | nil => intro acc id e hmem; cases hmem
  | cons p l ih =>
    intro acc id e hmem hen hpol
    rw [List.foldl_cons]
    rcases List.mem_cons.mp hmem with heq | htl
    · subst heq
      apply foldl_details_mono
      simp [sensorStep, hen, hpol]
    · exact ih _ _ _ htl hen hpol

lemma foldl_sum_details (f d h : ℚ) (l : List (SensorId × SensorEntry)) :
    ∀ (acc : SensorConsumption),
      acc.continuous + acc.polled = (acc.details.map (fun q => q.2.total_mwh)).sum →
      (l.foldl (sensorStep f d h) acc).continuous +
          (l.foldl (sensorStep f d h) acc).polled =
        ((l.foldl (sensorStep f d h) acc).details.map (fun q => q.2.total_mwh)).sum := by
  induction l with
  | nil => intro acc hacc; exact hacc
  | cons p l ih =>
    intro acc hacc
    rw [List.foldl_cons]
    apply ih
    unfold sensorStep
    split_ifs with he
    · cases hm : operation_mode p.1 <;>
        simp only [List.map_append, List.sum_append, List.map_cons, List.map_nil,
          List.sum_cons, List.sum_nil] <;> rw [← hacc] <;> ring
    · exact hacc

lemma foldl_polled_of_continuous (f d h : ℚ) (l : List (SensorId × SensorEntry)) :
    ∀ (acc : SensorConsumption),
      (∀ p ∈ l, p.2.enabled = true → operation_mode p.1 = OperationMode.continuous) →
      (l.foldl (sensorStep f d h) acc).polled = acc.polled := by
  induction l with
  | nil => intro acc _; rfl
  | cons p l ih =>
    intro acc hall
    rw [List.foldl_cons]
    rw [ih _ (fun q hq => hall q (List.mem_cons_of_mem _ hq))]
    unfold sensorStep
    split_ifs with he
    · rw [hall p (List.mem_cons_self _ _) he]
    · rfl

lemma total_consumption_eval (sc : SensorsConfig) (cc : CommsConfig)
    (pc : CoprocessorConfig) (ef : EfficiencyFactors) (hours : ℚ)
    (heff : ¬ef.temperature / 100 * ef.aging / 100 * ef.voltage / 100 = 0)
    (hh : ¬hours = 0) :
    calculate_total_consumption sc cc pc ef hours = some
      { sensors := calculate_sensor_consumption sc hours
        communications := calculate_comms_consumption cc hours
        coprocessor := calculate_coprocessor_consumption pc hours
        efficiency_factors := ef
        raw_total_mwh := (calculate_sensor_consumption sc hours).total +
          (calculate_comms_consumption cc hours).total +
          (calculate_coprocessor_consumption pc hours).total
        efficiency := ef.temperature / 100 * ef.aging / 100 * ef.voltage / 100
        derated_total_mwh := ((calculate_sensor_consumption sc hours).total +
          (calculate_comms_consumption cc hours).total +
          (calculate_coprocessor_consumption pc hours).total) /
          (ef.temperature / 100 * ef.aging / 100 * ef.voltage / 100)
        average_power_mw := ((calculate_sensor_consumption sc hours).total +
          (calculate_comms_consumption cc hours).total +
          (calculate_coprocessor_consumption pc hours).total) /
          (ef.temperature / 100 * ef.aging / 100 * ef.voltage / 100) / hours } := by
  simp [calculate_total_consumption, heff, hh]

/-- With no communications details and no co-processor total, the timeline
is the uniform continuous-sensor level on every in-range sample. -/
lemma timeline_eval_no_comms (data : TotalConsumption) (hours : ℕ)
    (hg : data.communications.gps = none)
    (hc : data.communications.cellular = none)
    (hl : data.communications.lora = none)
    (hp : ¬0 < data.coprocessor.total) :
    calculate_power_timeline data hours =
      some (fun s => if s < hours * 3600 then timeline_continuous data hours else 0) := by
  simp only [calculate_power_timeline, timeline_gps, timeline_cellular, timeline_lora,
    timeline_coprocessor, hg, hc, hl, if_neg hp]
  congr 1
  funext s
  split_ifs
  · rw [timeline_polled_eq_zero]; ring
  · rfl

/-! ## Shared concrete configurations -/

/-- An empty sensors dictionary (no sensor entries, base keys absent). -/
def emptySensors : SensorsConfig := ⟨[], none, none⟩

/-- A comms config with GPS, cellular and LoRa all disabled. -/
def allDisabledComms : CommsConfig :=
  ⟨⟨false, 0, 0, 0⟩, ⟨false, 0, 0, 0⟩, ⟨false, 0, FrequencyType.per_hour, 0, 0, none, none⟩⟩

/-- A disabled co-processor config. -/
def disabledCoprocessor : CoprocessorConfig :=
  ⟨false, CoprocessorType.JetsonOrinNano, 0, 0, 0, 0⟩

/-! ## Claim C9 -/

/-- Claim C9: `calculate_battery_life` returns `capacity_Wh × 1000 /
daily_mWh` days when `daily_mWh > 0` and the infinite sentinel when
`daily_mWh ≤ 0`; capacity 77 Wh with daily 1000 mWh yields exactly 77
days, and daily 0 yields the infinite sentinel. -/
theorem C9_battery_life (battery_capacity_wh daily_consumption_mwh : ℚ) :
    (0 < daily_consumption_mwh →
      calculate_battery_life battery_capacity_wh daily_consumption_mwh =
        BatteryLife.days (battery_capacity_wh * 1000 / daily_consumption_mwh)) ∧
    (daily_consumption_mwh ≤ 0 →
      calculate_battery_life battery_capacity_wh daily_consumption_mwh =
        BatteryLife.infinite) ∧
    calculate_battery_life 77 1000 = BatteryLife.days 77 ∧
    calculate_battery_life 77 0 = BatteryLife.infinite := by
  refine ⟨fun h => ?_, fun h => ?_, ?_, ?_⟩
  · unfold calculate_battery_life
    rw [if_pos h]
  · unfold calculate_battery_life
    rw [if_neg (not_lt.mpr h)]
  · norm_num [calculate_battery_life]
  · norm_num [calculate_battery_life]

/-- Witness for C9: the `daily_mwh > 0` branch at capacity 77 Wh and
daily 1000 mWh. -/
theorem C9_battery_life_witness :
    calculate_battery_life 77 1000 = BatteryLife.days (77 * 1000 / 1000) :=
  (C9_battery_life 77 1000).1 (by norm_num)

/-! ## Claim C10 -/

/-- Claim C10: for every sensors configuration and horizon, the result of
`calculate_sensor_consumption` satisfies `total = continuous + polled`,
and `continuous + polled` equals the sum of the per-sensor `details`
`total_mwh` values (only enabled sensors have detail entries). -/
theorem C10_sensor_breakdown (sensors_config : SensorsConfig) (hours : ℚ) :
    (calculate_sensor_consumption sensors_config hours).total =
      (calculate_sensor_consumption sensors_config hours).continuous +
        (calculate_sensor_consumption sensors_config hours).polled ∧
    (calculate_sensor_consumption sensors_config hours).continuous +
        (calculate_sensor_consumption sensors_config hours).polled =
      ((calculate_sensor_consumption sensors_config hours).details.map
        (fun q => q.2.total_mwh)).sum := by
  constructor
  · rfl
  · simp only [calculate_sensor_consumption]
    exact foldl_sum_details _ _ _ _ _ (by simp)

/-! ## Claim C8 -/

/-- Claim C8: for every enabled co-processor configuration, the startup
energy is `windows × fixed_startup_power × startup_duration_hours`, where
the startup power is the component model's `typical` active power, and it
does not depend on the mode-selected `active_power`/`idle_power` of the
configuration. -/
theorem C8_coprocessor_startup (config : CoprocessorConfig) (hours : ℚ)
    (hen : config.enabled = true) :
    ((calculate_coprocessor_consumption config hours).details.map
        (fun d => d.startup_mwh)) =
      some (config.frequency_per_day * (hours / 24) *
        COPROCESSOR_typical_active config.type *
        (COPROCESSOR_startup_time config.type / 3600)) ∧
    ∀ a i : ℚ,
      ((calculate_coprocessor_consumption
          { config with active_power := a, idle_power := i } hours).details.map
        (fun d => d.startup_mwh)) =
      ((calculate_coprocessor_consumption config hours).details.map
        (fun d => d.startup_mwh)) := by
  constructor
  · simp only [calculate_coprocessor_consumption, hen, if_true, Option.map_some']
    exact congrArg some (by ring)
  · intro a i
    simp [calculate_coprocessor_consumption, hen]

/-- A concrete enabled co-processor configuration (a CM4 in typical
mode). -/
def c8w : CoprocessorConfig := ⟨true, CoprocessorType.RaspberryPiCM4, 4000, 3 / 400, 4, 2⟩

/-- Witness for C8 at a CM4 with 4 windows per day over 24 h. -/
theorem C8_coprocessor_startup_witness :
    ((calculate_coprocessor_consumption c8w 24).details.map
        (fun d => d.startup_mwh)) =
      some (c8w.frequency_per_day * (24 / 24) *
        COPROCESSOR_typical_active c8w.type *
        (COPROCESSOR_startup_time c8w.type / 3600)) :=
  (C8_coprocessor_startup c8w 24 rfl).1

/-! ## Claim C2 -/

/-- Claim C2 (amended): for every enabled GPS configuration the returned
GPS energy is `acquisition_energy + (updates − 1) × active_power ×
duration_seconds / 3600` with `updates = frequency_per_hour ×
horizon_hours`, for all values of `updates` — the `(updates − 1)` tracking
term is also applied when `updates ≤ 0`, where it is negative, so the
energy then falls below the acquisition energy; when disabled the GPS
entry is absent and contributes nothing. -/
theorem C2_gps_energy (comms_config : CommsConfig) (hours : ℚ) :
    (comms_config.gps.enabled = true →
      (calculate_comms_consumption comms_config hours).gps = some
        { total_mwh := GPS_acquisition_power * GPS_acquisition_duration / 3600 +
            (comms_config.gps.frequency_per_hour * hours - 1) *
              comms_config.gps.active_power * comms_config.gps.duration_seconds / 3600
          average_mw := (GPS_acquisition_power * GPS_acquisition_duration / 3600 +
            (comms_config.gps.frequency_per_hour * hours - 1) *
              comms_config.gps.active_power * comms_config.gps.duration_seconds / 3600) /
            hours
          updates := comms_config.gps.frequency_per_hour * hours }) ∧
    (comms_config.gps.enabled = false →
      (calculate_comms_consumption comms_config hours).gps = none) := by
  constructor
  · intro h
    simp [calculate_comms_consumption, h]
  · intro h
    simp [calculate_comms_consumption, h]

/-- An enabled GPS configuration with `frequency_per_hour = 6`. -/
def c2w : CommsConfig :=
  ⟨⟨true, 20, 6, 30⟩, ⟨false, 0, 0, 0⟩, ⟨false, 0, FrequencyType.per_hour, 0, 0, none, none⟩⟩

/-- Witness for C2 at 6 updates/hour over 24 h. -/
theorem C2_gps_energy_witness :
    (calculate_comms_consumption c2w 24).gps = some
      { total_mwh := GPS_acquisition_power * GPS_acquisition_duration / 3600 +
          (c2w.gps.frequency_per_hour * 24 - 1) *
            c2w.gps.active_power * c2w.gps.duration_seconds / 3600
        average_mw := (GPS_acquisition_power * GPS_acquisition_duration / 3600 +
          (c2w.gps.frequency_per_hour * 24 - 1) *
            c2w.gps.active_power * c2w.gps.duration_seconds / 3600) / 24
        updates := c2w.gps.frequency_per_hour * 24 } :=
  (C2_gps_energy c2w 24).1 rfl

/-- An enabled GPS configuration whose update frequency is zero, so
`updates = 0 ≤ 0`. -/
def c2cex : CommsConfig :=
  ⟨⟨true, 20, 0, 30⟩, ⟨false, 0, 0, 0⟩, ⟨false, 0, FrequencyType.per_hour, 0, 0, none, none⟩⟩

/-- Counterexample to C2 as stated: with `updates = 0` the calculator
still subtracts one tracking update, returning 1/24 mWh instead of the
acquisition energy 5/24 mWh. -/
theorem C2_counterexample :
    ((calculate_comms_consumption c2cex 24).gps.map
        (fun d => (d.updates, d.total_mwh))) = some (0, 1 / 24) ∧
    (1 / 24 : ℚ) ≠ GPS_acquisition_power * GPS_acquisition_duration / 3600 := by
  constructor
  · norm_num [calculate_comms_consumption, c2cex, GPS_acquisition_power,
      GPS_acquisition_duration]
  · norm_num [GPS_acquisition_power, GPS_acquisition_duration]

/-! ## Claim C3 -/

/-- Claim C3 (amended): when the derating triple makes the combined
efficiency factor compute to zero, `calculate_total_consumption` raises
`ZeroDivisionError` (modelled as `none`) instead of reporting a result —
the caller must guard against zero-percent derating inputs. -/
theorem C3_zero_efficiency_raises (sensors_config : SensorsConfig)
    (comms_config : CommsConfig) (coprocessor_config : CoprocessorConfig)
    (efficiency_factors : EfficiencyFactors) (hours : ℚ)
    (h : efficiency_factors.temperature / 100 * efficiency_factors.aging / 100 *
      efficiency_factors.voltage / 100 = 0) :
    calculate_total_consumption sensors_config comms_config coprocessor_config
      efficiency_factors hours = none := by
  simp [calculate_total_consumption, h]

/-- Witness for C3 (amended) at an aging percentage of zero. -/
theorem C3_zero_efficiency_raises_witness :
    calculate_total_consumption emptySensors allDisabledComms disabledCoprocessor
      ⟨85, 0, 85⟩ 24 = none :=
  C3_zero_efficiency_raises _ _ _ _ _ (by norm_num)

/-- Counterexample to C3 as stated: with a temperature percentage of zero
the aggregator crashes (raises, modelled as `none`) rather than reporting
without an exception. -/
theorem C3_counterexample :
    calculate_total_consumption emptySensors allDisabledComms disabledCoprocessor
      ⟨0, 90, 85⟩ 24 = none := by
  norm_num [calculate_total_consumption]

/-! ## Claim C5 -/

/-- Claim C5 (amended): a missing `rx_duty_cycle` field is read through
`lora.get("rx_duty_cycle", 0.1)` and is therefore treated as 0.1 (the
default schedule's duty cycle) — not as zero; a missing `listen_enabled`
field is treated as `False`. -/
theorem C5_missing_optional_fields (comms_config : CommsConfig) (hours : ℚ) :
    calculate_comms_consumption
        { comms_config with lora := { comms_config.lora with rx_duty_cycle := none } }
        hours =
      calculate_comms_consumption
        { comms_config with lora :=
            { comms_config.lora with rx_duty_cycle := some LORA_default_rx_duty } }
        hours ∧
    calculate_comms_consumption
        { comms_config with lora := { comms_config.lora with listen_enabled := none } }
        hours =
      calculate_comms_consumption
        { comms_config with lora := { comms_config.lora with listen_enabled := some false } }
        hours :=
  ⟨rfl, rfl⟩

/-- An enabled LoRa configuration with listening enabled and no
`rx_duty_cycle` field. -/
def c5cex : CommsConfig :=
  ⟨⟨false, 0, 0, 0⟩, ⟨false, 0, 0, 0⟩,
   ⟨true, 100, FrequencyType.per_hour, 1, 5, some true, none⟩⟩

/-- Counterexample to C5 as stated: with listening enabled and
`rx_duty_cycle` absent, the result differs from the duty-cycle-zero result
and instead equals the duty-cycle-0.1 result. -/
theorem C5_counterexample :
    (calculate_comms_consumption c5cex 24).total ≠
      (calculate_comms_consumption
        { c5cex with lora := { c5cex.lora with rx_duty_cycle := some 0 } } 24).total ∧
    (calculate_comms_consumption c5cex 24).total =
      (calculate_comms_consumption
        { c5cex with lora := { c5cex.lora with rx_duty_cycle := some (1 / 10) } } 24).total := by
  constructor
  · norm_num [calculate_comms_consumption, c5cex, LORA_rx_power, LORA_sleep_power,
      LORA_default_rx_duty, LORA_tx_power]
  · rfl

/-! ## Claim C6 -/

/-- Claim C6: a component whose `enabled` flag is false contributes zero
energy, is excluded from the outputs, and none of its other fields
influences any calculator result: a disabled sensor entry can be replaced
by any other disabled entry or removed outright; a disabled GPS, cellular
or LoRa config can be replaced by any other disabled one and produces no
detail entry; a disabled co-processor config always yields
`{total := 0, details := none}`. -/
theorem C6_disabled_noninterference :
    (∀ (pre post : List (SensorId × SensorEntry)) (id : SensorId)
        (e e' : SensorEntry) (bf bd : Option ℚ) (hours : ℚ),
      e.enabled = false → e'.enabled = false →
      calculate_sensor_consumption ⟨pre ++ (id, e) :: post, bf, bd⟩ hours =
          calculate_sensor_consumption ⟨pre ++ (id, e') :: post, bf, bd⟩ hours ∧
        calculate_sensor_consumption ⟨pre ++ (id, e) :: post, bf, bd⟩ hours =
          calculate_sensor_consumption ⟨pre ++ post, bf, bd⟩ hours) ∧
    (∀ (comms_config : CommsConfig) (g : GpsConfig) (hours : ℚ),
      comms_config.gps.enabled = false → g.enabled = false →
      calculate_comms_consumption { comms_config with gps := g } hours =
          calculate_comms_consumption comms_config hours ∧
        (calculate_comms_consumption comms_config hours).gps = none) ∧
    (∀ (comms_config : CommsConfig) (c : CellularConfig) (hours : ℚ),
      comms_config.cellular.enabled = false → c.enabled = false →
      calculate_comms_consumption { comms_config with cellular := c } hours =
          calculate_comms_consumption comms_config hours ∧
        (calculate_comms_consumption comms_config hours).cellular = none) ∧
    (∀ (comms_config : CommsConfig) (l : LoraConfig) (hours : ℚ),
      comms_config.lora.enabled = false → l.enabled = false →
      calculate_comms_consumption { comms_config with lora := l } hours =
          calculate_comms_consumption comms_config hours ∧
        (calculate_comms_consumption comms_config hours).lora = none) ∧
    (∀ (c c' : CoprocessorConfig) (hours : ℚ),
      c.enabled = false → c'.enabled = false →
      calculate_coprocessor_consumption c hours =
          calculate_coprocessor_consumption c' hours ∧
        calculate_coprocessor_consumption c hours = { total := 0, details := none }) := by
  have hmid : ∀ (pre post : List (SensorId × SensorEntry)) (id : SensorId)
      (e : SensorEntry) (bf bd : Option ℚ) (hours : ℚ), e.enabled = false →
      calculate_sensor_consumption ⟨pre ++ (id, e) :: post, bf, bd⟩ hours =
        calculate_sensor_consumption ⟨pre ++ post, bf, bd⟩ hours := by
    intro pre post id e bf bd hours he
    simp only [calculate_sensor_consumption]
    rw [List.foldl_append, List.foldl_append, List.foldl_cons,
      sensorStep_disabled _ _ _ _ _ he]
  refine ⟨?_, ?_, ?_, ?_, ?_⟩
  · intro pre post id e e' bf bd hours he he'
    exact ⟨(hmid pre post id e bf bd hours he).trans
        (hmid pre post id e' bf bd hours he').symm,
      hmid pre post id e bf bd hours he⟩
  · intro comms_config g hours h1 h2
    constructor
    · simp [calculate_comms_consumption, h1, h2]
    · simp [calculate_comms_consumption, h1]
  · intro comms_config c hours h1 h2
    constructor
    · simp [calculate_comms_consumption, h1, h2]
    · simp [calculate_comms_consumption, h1]
  · intro comms_config l hours h1 h2
    constructor
    · simp [calculate_comms_consumption, h1, h2]
    · simp [calculate_comms_consumption, h1]
  · intro c c' hours h1 h2
    rw [coprocessor_disabled_eval _ _ h1, coprocessor_disabled_eval _ _ h2]
    exact ⟨rfl, rfl⟩

/-- Witness for C6: two different disabled BME280 entries give the same
result as each other, and a disabled co-processor yields the empty
result. -/
theorem C6_disabled_noninterference_witness :
    calculate_sensor_consumption ⟨[(SensorId.BME280, ⟨false, 5, 7⟩)], none, none⟩ 24 =
        calculate_sensor_consumption ⟨[(SensorId.BME280, ⟨false, 1, 2⟩)], none, none⟩ 24 ∧
    calculate_coprocessor_consumption ⟨false, CoprocessorType.JetsonOrinNano, 1, 2, 3, 4⟩ 24 =
      { total := 0, details := none } :=
  ⟨(C6_disabled_noninterference.1 [] [] SensorId.BME280 ⟨false, 5, 7⟩ ⟨false, 1, 2⟩
      none none 24 rfl rfl).1,
   (C6_disabled_noninterference.2.2.2.2 ⟨false, CoprocessorType.JetsonOrinNano, 1, 2, 3, 4⟩
      ⟨false, CoprocessorType.RaspberryPiCM4, 0, 0, 0, 0⟩ 24 rfl rfl).2⟩

/-! ## Claim C7 -/

/-- Claim C7: every enabled polled sensor gets a detail entry computed
with `active_hours = base_frequency × base_duration × hours / 3600` and
`energy = active_power × active_hours + sleep_power × (hours −
active_hours)`; whenever `active_hours ≤ hours`,
`active_hours + sleep_hours = hours` exactly. -/
theorem C7_polled_sensor (sensors_config : SensorsConfig) (hours : ℚ)
    (id : SensorId) (e : SensorEntry)
    (hmem : (id, e) ∈ sensors_config.sensors) (hen : e.enabled = true)
    (hpol : operation_mode id = OperationMode.polled) :
    ((id, { total_mwh := e.active_power *
              (sensors_config.base_frequency_per_hour.getD 60 *
                sensors_config.base_duration_seconds.getD (1 / 10) * hours / 3600) +
            e.sleep_power * (hours -
              sensors_config.base_frequency_per_hour.getD 60 *
                sensors_config.base_duration_seconds.getD (1 / 10) * hours / 3600)
            average_mw := (e.active_power *
              (sensors_config.base_frequency_per_hour.getD 60 *
                sensors_config.base_duration_seconds.getD (1 / 10) * hours / 3600) +
            e.sleep_power * (hours -
              sensors_config.base_frequency_per_hour.getD 60 *
                sensors_config.base_duration_seconds.getD (1 / 10) * hours / 3600)) / hours
            operation_mode := OperationMode.polled }) ∈
        (calculate_sensor_consumption sensors_config hours).details) ∧
    (sensors_config.base_frequency_per_hour.getD 60 *
        sensors_config.base_duration_seconds.getD (1 / 10) * hours / 3600 ≤ hours →
      sensors_config.base_frequency_per_hour.getD 60 *
          sensors_config.base_duration_seconds.getD (1 / 10) * hours / 3600 +
        (hours - sensors_config.base_frequency_per_hour.getD 60 *
          sensors_config.base_duration_seconds.getD (1 / 10) * hours / 3600) = hours) := by
  constructor
  · simp only [calculate_sensor_consumption]
    exact foldl_details_of_mem_polled _ _ _ _ _ _ _ hmem hen hpol
  · intro _
    ring

/-- A configuration with one enabled polled magnetometer. -/
def c7w : SensorsConfig := ⟨[(SensorId.MMC5983MA, ⟨true, 1, 0⟩)], none, none⟩

/-- Witness for C7 at the default base schedule (60/hour, 0.1 s) over
24 h. -/
theorem C7_polled_sensor_witness :
    ((SensorId.MMC5983MA, SensorDetail.mk
        ((1 : ℚ) * (c7w.base_frequency_per_hour.getD 60 *
            c7w.base_duration_seconds.getD (1 / 10) * 24 / 3600) +
          (0 : ℚ) * (24 - c7w.base_frequency_per_hour.getD 60 *
            c7w.base_duration_seconds.getD (1 / 10) * 24 / 3600))
        (((1 : ℚ) * (c7w.base_frequency_per_hour.getD 60 *
            c7w.base_duration_seconds.getD (1 / 10) * 24 / 3600) +
          (0 : ℚ) * (24 - c7w.base_frequency_per_hour.getD 60 *
            c7w.base_duration_seconds.getD (1 / 10) * 24 / 3600)) / 24)
        OperationMode.polled) ∈
        (calculate_sensor_consumption c7w 24).details) ∧
    (c7w.base_frequency_per_hour.getD 60 *
        c7w.base_duration_seconds.getD (1 / 10) * 24 / 3600 ≤ 24 →
      c7w.base_frequency_per_hour.getD 60 *
          c7w.base_duration_seconds.getD (1 / 10) * 24 / 3600 +
        (24 - c7w.base_frequency_per_hour.getD 60 *
          c7w.base_duration_seconds.getD (1 / 10) * 24 / 3600) = 24) :=
  C7_polled_sensor c7w 24 SensorId.MMC5983MA ⟨true, 1, 0⟩
    (List.mem_singleton.mpr rfl) rfl rfl

/-! ## Claim C4 -/

lemma raw_le_derated (raw eff : ℚ) (h0 : 0 < eff) (h1 : eff ≤ 1) (hraw : 0 ≤ raw) :
    raw ≤ raw / eff := by
  rw [le_div_iff₀ h0]
  nlinarith

/-- Claim C4 (amended): given derating percentages each in (0, 100], the
aggregate satisfies `efficiency ∈ (0, 1]`, and `derated_total_mwh ≥
raw_total_mwh` holds whenever additionally `raw_total_mwh ≥ 0` (a
negative raw total — possible, e.g., with a zero GPS update frequency —
is shrunk rather than grown by derating). -/
theorem C4_aggregate_invariant (sensors_config : SensorsConfig)
    (comms_config : CommsConfig) (coprocessor_config : CoprocessorConfig)
    (ef : EfficiencyFactors) (hours : ℚ) (data : TotalConsumption)
    (ht0 : 0 < ef.temperature) (ht1 : ef.temperature ≤ 100)
    (ha0 : 0 < ef.aging) (ha1 : ef.aging ≤ 100)
    (hv0 : 0 < ef.voltage) (hv1 : ef.voltage ≤ 100)
    (hdata : calculate_total_consumption sensors_config comms_config
      coprocessor_config ef hours = some data) :
    0 < data.efficiency ∧ data.efficiency ≤ 1 ∧
      (0 ≤ data.raw_total_mwh → data.raw_total_mwh ≤ data.derated_total_mwh) := by
  have heff0 : 0 < ef.temperature / 100 * ef.aging / 100 * ef.voltage / 100 := by
    positivity
  have heff1 : ef.temperature / 100 * ef.aging / 100 * ef.voltage / 100 ≤ 1 := by
    have hta : ef.temperature * ef.aging ≤ 100 * 100 :=
      mul_le_mul ht1 ha1 (le_of_lt ha0) (by norm_num)
    have htav : ef.temperature * ef.aging * ef.voltage ≤ 100 * 100 * 100 :=
      mul_le_mul hta hv1 (le_of_lt hv0) (by norm_num)
    have heq : ef.temperature / 100 * ef.aging / 100 * ef.voltage / 100 =
        ef.temperature * ef.aging * ef.voltage / 1000000 := by ring
    rw [heq, div_le_one (by norm_num)]
    linarith
  by_cases hh : hours = 0
  · rw [hh] at hdata
    simp [calculate_total_consumption, heff0.ne'] at hdata
  · rw [total_consumption_eval _ _ _ _ _ heff0.ne' hh] at hdata
    obtain rfl := Option.some.inj hdata
    exact ⟨heff0, heff1, fun hraw => raw_le_derated _ _ heff0 heff1 hraw⟩

lemma c4w_isSome :
    (calculate_total_consumption emptySensors allDisabledComms disabledCoprocessor
      ⟨85, 90, 85⟩ 24).isSome = true := by
  rw [total_consumption_eval _ _ _ _ _ (by norm_num) (by norm_num)]
  rfl

/-- The aggregate at the reference derating triple (85, 90, 85) over an
all-disabled configuration. -/
def c4wData : TotalConsumption :=
  (calculate_total_consumption emptySensors allDisabledComms disabledCoprocessor
    ⟨85, 90, 85⟩ 24).get c4w_isSome

/-- Witness for C4 (amended) at the reference derating triple. -/
theorem C4_aggregate_invariant_witness :
    0 < c4wData.efficiency ∧ c4wData.efficiency ≤ 1 ∧
      (0 ≤ c4wData.raw_total_mwh → c4wData.raw_total_mwh ≤ c4wData.derated_total_mwh) :=
  C4_aggregate_invariant emptySensors allDisabledComms disabledCoprocessor ⟨85, 90, 85⟩
    24 c4wData (by norm_num) (by norm_num) (by norm_num) (by norm_num) (by norm_num)
    (by norm_num) (Option.some_get c4w_isSome).symm

/-- A comms config whose enabled GPS has update frequency 0 and a one-hour
fix duration, making the raw total negative. -/
def c4cexComms : CommsConfig :=
  ⟨⟨true, 20, 0, 3600⟩, ⟨false, 0, 0, 0⟩,
   ⟨false, 0, FrequencyType.per_hour, 0, 0, none, none⟩⟩

/-- Counterexample to C4 as stated: with percentages (85, 90, 85), all in
(0, 100], a configuration with negative raw total (−475/24 mWh) has
`derated_total_mwh = −237500/7803 < raw_total_mwh`, violating
`derated ≥ raw`. -/
theorem C4_counterexample :
    ((calculate_total_consumption emptySensors c4cexComms disabledCoprocessor
        ⟨85, 90, 85⟩ 24).map (fun d => (d.raw_total_mwh, d.derated_total_mwh))) =
      some (-475 / 24, -237500 / 7803) ∧
    ¬((-475 / 24 : ℚ) ≤ -237500 / 7803) := by
  constructor
  · rw [total_consumption_eval _ _ _ _ _ (by norm_num) (by norm_num), Option.map_some']
    norm_num [calculate_sensor_consumption, calculate_comms_consumption,
      calculate_coprocessor_consumption, emptySensors, c4cexComms, disabledCoprocessor,
      GPS_acquisition_power, GPS_acquisition_duration, List.foldl_nil]
  · norm_num

/-! ## Claim C1 -/

lemma sum_const_timeline (hours : ℕ) (c : ℚ) :
    ∑ s ∈ Finset.range (hours * 3600), (if s < hours * 3600 then c else 0) =
      ((hours * 3600 : ℕ) : ℚ) * c := by
  have h : ∀ s ∈ Finset.range (hours * 3600),
      (if s < hours * 3600 then c else 0) = c :=
    fun s hs => if_pos (Finset.mem_range.mp hs)
  rw [Finset.sum_congr rfl h, Finset.sum_const, Finset.card_range, nsmul_eq_mul]

lemma sensor_polled_zero (sensors_config : SensorsConfig) (hours : ℚ)
    (hmodes : ∀ p ∈ sensors_config.sensors, p.2.enabled = true →
      operation_mode p.1 = OperationMode.continuous) :
    (calculate_sensor_consumption sensors_config hours).polled = 0 := by
  simp only [calculate_sensor_consumption]
  rw [foldl_polled_of_continuous _ _ _ _ _ hmodes]

lemma timeline_map_sum_zero (data : TotalConsumption) (hours : ℕ)
    (hg : data.communications.gps = none)
    (hc : data.communications.cellular = none)
    (hl : data.communications.lora = none)
    (hp : ¬0 < data.coprocessor.total)
    (hcont : ¬0 < data.sensors.continuous) :
    (calculate_power_timeline data hours).map
      (fun tl => (∑ s ∈ Finset.range (hours * 3600), tl s) / 3600) = some 0 := by
  have h0 : timeline_continuous data hours = 0 := by
    unfold timeline_continuous
    rw [if_neg hcont]
  rw [timeline_eval_no_comms _ _ hg hc hl hp, Option.map_some']
  congr 1
  simp only []
  rw [sum_const_timeline, h0, mul_zero, zero_div]

/-- Claim C1 (amended): the timeline integrates to the raw total only in
the continuous-only case: when every enabled sensor is continuous, GPS,
cellular, LoRa and the co-processor are disabled, and the continuous total
is nonnegative, `sum(timeline) / 3600 = raw_total_mwh` exactly. -/
theorem C1_timeline_integration (sensors_config : SensorsConfig)
    (comms_config : CommsConfig) (coprocessor_config : CoprocessorConfig)
    (ef : EfficiencyFactors) (hours : ℕ) (data : TotalConsumption) (tl : ℕ → ℚ)
    (hhours : 0 < hours)
    (hmodes : ∀ p ∈ sensors_config.sensors, p.2.enabled = true →
      operation_mode p.1 = OperationMode.continuous)
    (hgps : comms_config.gps.enabled = false)
    (hcell : comms_config.cellular.enabled = false)
    (hlora : comms_config.lora.enabled = false)
    (hcop : coprocessor_config.enabled = false)
    (hcont : 0 ≤ (calculate_sensor_consumption sensors_config (hours : ℚ)).continuous)
    (hdata : calculate_total_consumption sensors_config comms_config coprocessor_config
      ef (hours : ℚ) = some data)
    (htl : calculate_power_timeline data hours = some tl) :
    (∑ s ∈ Finset.range (hours * 3600), tl s) / 3600 = data.raw_total_mwh := by
  have hq : ((hours : ℕ) : ℚ) ≠ 0 := Nat.cast_ne_zero.mpr hhours.ne'
  by_cases heff : ef.temperature / 100 * ef.aging / 100 * ef.voltage / 100 = 0
  · simp [calculate_total_consumption, heff] at hdata
  · have hcomms := comms_disabled_eval comms_config ((hours : ℕ) : ℚ) hgps hcell hlora
    have hcopro := coprocessor_disabled_eval coprocessor_config ((hours : ℕ) : ℚ) hcop
    rw [total_consumption_eval _ _ _ _ _ heff hq] at hdata
    obtain rfl := Option.some.inj hdata
    rw [timeline_eval_no_comms _ _ (by rw [hcomms]) (by rw [hcomms]) (by rw [hcomms])
      (by rw [hcopro]; exact lt_irrefl 0)] at htl
    obtain rfl := Option.some.inj htl
    simp only []
    rw [sum_const_timeline]
    have htot : (calculate_sensor_consumption sensors_config ((hours : ℕ) : ℚ)).total =
        (calculate_sensor_consumption sensors_config ((hours : ℕ) : ℚ)).continuous +
          (calculate_sensor_consumption sensors_config ((hours : ℕ) : ℚ)).polled := rfl
    show ((hours * 3600 : ℕ) : ℚ) *
        timeline_continuous
          { sensors := calculate_sensor_consumption sensors_config ((hours : ℕ) : ℚ)
            communications := calculate_comms_consumption comms_config ((hours : ℕ) : ℚ)
            coprocessor := calculate_coprocessor_consumption coprocessor_config ((hours : ℕ) : ℚ)
            efficiency_factors := ef
            raw_total_mwh := _
            efficiency := _
            derated_total_mwh := _
            average_power_mw := _ } hours / 3600 = _
    unfold timeline_continuous
    rw [hcomms, hcopro]
    simp only [htot, sensor_polled_zero sensors_config _ hmodes, add_zero]
    rcases lt_or_eq_of_le hcont with hlt | heq
    · rw [if_pos hlt]
      push_cast
      field_simp
    · rw [← heq, if_neg (lt_irrefl 0), mul_zero, zero_div]

/-- A configuration with a single enabled continuous sensor (the IMU at
its typical active power). -/
def c1wSensors : SensorsConfig := ⟨[(SensorId.LSM6DSV, ⟨true, 139 / 200, 3 / 2000⟩)], none, none⟩

/-- The aggregate for the continuous-only witness configuration, written
as `calculate_total_consumption` produces it. -/
def c1wData : TotalConsumption :=
  { sensors := calculate_sensor_consumption c1wSensors ((24 : ℕ) : ℚ)
    communications := calculate_comms_consumption allDisabledComms ((24 : ℕ) : ℚ)
    coprocessor := calculate_coprocessor_consumption disabledCoprocessor ((24 : ℕ) : ℚ)
    efficiency_factors := ⟨85, 90, 85⟩
    raw_total_mwh := (calculate_sensor_consumption c1wSensors ((24 : ℕ) : ℚ)).total +
      (calculate_comms_consumption allDisabledComms ((24 : ℕ) : ℚ)).total +
      (calculate_coprocessor_consumption disabledCoprocessor ((24 : ℕ) : ℚ)).total
    efficiency := (85 : ℚ) / 100 * 90 / 100 * 85 / 100
    derated_total_mwh := ((calculate_sensor_consumption c1wSensors ((24 : ℕ) : ℚ)).total +
      (calculate_comms_consumption allDisabledComms ((24 : ℕ) : ℚ)).total +
      (calculate_coprocessor_consumption disabledCoprocessor ((24 : ℕ) : ℚ)).total) /
      ((85 : ℚ) / 100 * 90 / 100 * 85 / 100)
    average_power_mw := ((calculate_sensor_consumption c1wSensors ((24 : ℕ) : ℚ)).total +
      (calculate_comms_consumption allDisabledComms ((24 : ℕ) : ℚ)).total +
      (calculate_coprocessor_consumption disabledCoprocessor ((24 : ℕ) : ℚ)).total) /
      ((85 : ℚ) / 100 * 90 / 100 * 85 / 100) / ((24 : ℕ) : ℚ) }

lemma c1wData_spec :
    calculate_total_consumption c1wSensors allDisabledComms disabledCoprocessor
      ⟨85, 90, 85⟩ ((24 : ℕ) : ℚ) = some c1wData := by
  rw [total_consumption_eval _ _ _ _ _ (by norm_num) (by norm_num)]
  rfl

lemma c1wData_comms : c1wData.communications =
    CommsConsumption.mk 0 none none none := by
  have h : c1wData.communications =
      calculate_comms_consumption allDisabledComms ((24 : ℕ) : ℚ) := rfl
  rw [h, comms_disabled_eval _ _ rfl rfl rfl]

lemma c1wData_coprocessor : c1wData.coprocessor = CoprocessorConsumption.mk 0 none := by
  have h : c1wData.coprocessor =
      calculate_coprocessor_consumption disabledCoprocessor ((24 : ℕ) : ℚ) := rfl
  rw [h, coprocessor_disabled_eval _ _ rfl]

lemma c1wTl_isSome : (calculate_power_timeline c1wData 24).isSome = true := by
  rw [timeline_eval_no_comms _ _ (by rw [c1wData_comms]) (by rw [c1wData_comms])
    (by rw [c1wData_comms]) (by rw [c1wData_coprocessor]; exact lt_irrefl 0)]
  rfl

/-- The timeline of the continuous-only witness configuration. -/
def c1wTl : ℕ → ℚ := (calculate_power_timeline c1wData 24).get c1wTl_isSome

/-- Witness for C1 (amended) at a continuous-only configuration over the
24-hour horizon. -/
theorem C1_timeline_integration_witness :
    (∑ s ∈ Finset.range (24 * 3600), c1wTl s) / 3600 = c1wData.raw_total_mwh :=
  C1_timeline_integration c1wSensors allDisabledComms disabledCoprocessor ⟨85, 90, 85⟩
    24 c1wData c1wTl (by norm_num)
    (by
      intro p hp _
      obtain rfl := List.mem_singleton.mp hp
      rfl)
    rfl rfl rfl rfl
    (by norm_num [calculate_sensor_consumption, c1wSensors, sensorStep, operation_mode,
      List.foldl_cons, List.foldl_nil])
    c1wData_spec (Option.some_get c1wTl_isSome).symm

/-- A configuration with a single enabled polled sensor (active power 1
mW, sleep power 0), whose 0.1 s sampling windows never touch the horizon
boundary. -/
def c1cexSensors : SensorsConfig := ⟨[(SensorId.BME280, ⟨true, 1, 0⟩)], none, none⟩

/-- Counterexample to C1 as stated: for the polled-only configuration the
raw total is 1/25 mWh but the timeline integrates to 0 (the slice
`timeline[int(t):int(t + 0.1)]` is always empty), so
`sum(timeline)/3600 ≠ raw_total_mwh` even though no scheduled window
overlaps the 24-hour horizon boundary. -/
theorem C1_counterexample :
    ((calculate_total_consumption c1cexSensors allDisabledComms disabledCoprocessor
        ⟨100, 100, 100⟩ 24).map (fun d => d.raw_total_mwh)) = some (1 / 25) ∧
    ((calculate_total_consumption c1cexSensors allDisabledComms disabledCoprocessor
        ⟨100, 100, 100⟩ 24).bind (fun d => (calculate_power_timeline d 24).map
          (fun tl => (∑ s ∈ Finset.range (24 * 3600), tl s) / 3600))) = some 0 ∧
    (0 : ℚ) ≠ 1 / 25 := by
  have hcomms := comms_disabled_eval allDisabledComms 24 rfl rfl rfl
  have hcop := coprocessor_disabled_eval disabledCoprocessor 24 rfl
  rw [total_consumption_eval _ _ _ _ _ (by norm_num) (by norm_num)]
  refine ⟨?_, ?_, by norm_num⟩
  · rw [Option.map_some', hcomms, hcop]
    norm_num [calculate_sensor_consumption, c1cexSensors, sensorStep, operation_mode,
      List.foldl_cons, List.foldl_nil]
  · rw [Option.some_bind]
    apply timeline_map_sum_zero
    · rw [hcomms]
    · rw [hcomms]
    · rw [hcomms]
    · rw [hcop]
      exact lt_irrefl 0
    · norm_num [calculate_sensor_consumption, c1cexSensors, sensorStep, operation_mode,
        List.foldl_cons, List.foldl_nil]

end PowerGraph
